import Mathlib

/-!
Shallow embedding of `src/src/scenejs/boundary/boundingBox.js`
(`SceneJS.BoundingBox`): a scene-graph node that classifies its subtree
against two locality radii and the view frustum once per traversal frame,
optionally selects a level-of-detail child from an ascending threshold
table, and fires `state-changed` / `lod-selected` events.

Modelling conventions:
* JS numbers (doubles compared only by order here) are modelled as `ℚ`.
* The external services (locality module, frustum module, transform module,
  instancing module) are out of scope per the spec; their per-frame answers
  are fields of `FrameInput`, and the matrix math `Box3.fromPoints ∘
  transformPoints3` is an opaque function field `transformBox`.
* Invocations of the external tests are counted in `Calls` so that
  short-circuiting is observable.
* `this._renderNode(i, ...)` / `this._renderNodes(...)` are recorded as the
  observable `Visit` outcome (`child i` / `all`); a frame that renders
  nothing yields `Visit.none`.
* A thrown `fatalError` is modelled as the mutated node paired with
  `some` error (JS mutations before the throw persist); a throw inside
  `_render`'s dynamic `_init` call aborts the frame (`aborted = true`).
* The unused locals of the source (`this._states`, `var state =
  this._states[i]`) are omitted.
-/

namespace SceneJS

/-- A point, as one entry of `this._objectCoords`. -/
structure Point3 where
  x : ℚ
  y : ℚ
  z : ℚ
deriving DecidableEq

/-- An axis-aligned box, as `this._viewBox` (`SceneJS._math_Box3`). -/
structure Box3 where
  min : Point3
  max : Point3
deriving DecidableEq

/-- Result of `SceneJS._frustumModule.testAxisBoxIntersection`: one of
`SceneJS._math_INSIDE_FRUSTUM`, `SceneJS._math_INTERSECT_FRUSTUM`,
`SceneJS._math_OUTSIDE_FRUSTUM`. -/
inductive FrustumResult where
  | inside
  | intersect
  | outside
deriving DecidableEq

/-- An event fired via `this._fireEvent`, with its payload fields. -/
inductive Event where
  | stateChanged (oldState newState : Nat)
  | lodSelected (oldLevel newLevel : Int)
deriving DecidableEq

/-- Which children `_render` visits this frame: none, the single child
`i` (`this._renderNode(i, ...)`), or all (`this._renderNodes(...)`). -/
inductive Visit where
  | none
  | child (i : Nat)
  | all
deriving DecidableEq

/-- Invocation counts of the external test services during one frame. -/
structure Calls where
  outer : Nat
  inner : Nat
  frustum : Nat
  size : Nat
deriving DecidableEq

/-- `SceneJS.errors.NodeConfigExpectedException` passed to `fatalError`. -/
inductive SceneError where
  | nodeConfigExpected (msg : String)
deriving DecidableEq

/-- Configuration params consumed by `_init`.  The JS `params.xmin || 0`
coalescing of absent fields is modelled by defaulting each extent to 0. -/
structure InitParams where
  xmin : ℚ := 0
  ymin : ℚ := 0
  zmin : ℚ := 0
  xmax : ℚ := 0
  ymax : ℚ := 0
  zmax : ℚ := 0
  levels : Option (List ℚ) := Option.none

/-- Everything one `_render` call consumes from the external collaborators:
the transform flags, the instancing flag, the opaque box-transform math,
the locality and frustum answers for this frame's box, the projected size,
and the dynamic-config params (`this._getParams(data)`). -/
structure FrameInput where
  params : InitParams
  identity : Bool
  fixed : Bool
  instancing : Bool
  transformBox : List Point3 → Box3
  outer : Bool
  inner : Bool
  frustum : FrustumResult
  size : ℚ

/-- The mutable fields of a `SceneJS.BoundingBox` node that
`boundingBox.js` reads or writes, plus the parts of the inherited
`SceneJS.Node` it consults: `this._children.length`, `this._fixedParams`,
and whether `this._listeners` has an entry for each event name. -/
structure BoundingBox where
  xmin : ℚ
  ymin : ℚ
  zmin : ℚ
  xmax : ℚ
  ymax : ℚ
  zmax : ℚ
  levels : Option (List ℚ)
  level : Int
  state : Nat
  objectCoords : Option (List Point3)
  viewBox : Option Box3
  memoLevel : Nat
  fixedParams : Bool
  childCount : Nat
  stateListener : Bool
  lodListener : Bool

/-- What one `_render` call produces: the node after the call, the final
value of the local `newState` variable, the level index the LOD loop
selected this frame (if any), the visit outcome, the fired events in
order, the collaborator call counts, and whether a dynamic `_init` threw
mid-frame. -/
structure FrameResult where
  node : BoundingBox
  newState : Nat
  selectedLevel : Option Nat
  visit : Visit
  events : List Event
  calls : Calls
  aborted : Bool

/-- `true` for a `state-changed` event. -/
def Event.isStateChanged : Event → Bool
  | Event.stateChanged _ _ => true
  | Event.lodSelected _ _ => false

/-- `true` for a `lod-selected` event. -/
def Event.isLodSelected : Event → Bool
  | Event.stateChanged _ _ => false
  | Event.lodSelected _ _ => true

/-- Whether a `state-changed` event occurs in an event list. -/
def hasStateEvent (evs : List Event) : Bool :=
  evs.any Event.isStateChanged

/-- Whether a `lod-selected` event occurs in an event list. -/
def hasLodEvent (evs : List Event) : Bool :=
  evs.any Event.isLodSelected

/-- The ascending check of `_init`: the loop
`for (i = 1; i < levels.length; i++) if (levels[i-1] >= levels[i]) throw`
passes exactly when every adjacent pair is strictly increasing. -/
def levelsOrdered : List ℚ → Bool
  | [] => true
  | [_] => true
  | a :: b :: rest => decide (a < b) && levelsOrdered (b :: rest)

namespace BoundingBox

/-- `SceneJS.BoundingBox.STATE_INITIAL` -/
def STATE_INITIAL : Nat := 0

/-- `SceneJS.BoundingBox.STATE_OUTSIDE_OUTER_LOCALITY` -/
def STATE_OUTSIDE_OUTER_LOCALITY : Nat := 1

/-- `SceneJS.BoundingBox.STATE_INTERSECTING_OUTER_LOCALITY` -/
def STATE_INTERSECTING_OUTER_LOCALITY : Nat := 2

/-- `SceneJS.BoundingBox.STATE_INTERSECTING_INNER_LOCALITY` -/
def STATE_INTERSECTING_INNER_LOCALITY : Nat := 3

/-- `SceneJS.BoundingBox.STATE_INTERSECTING_FRUSTUM` -/
def STATE_INTERSECTING_FRUSTUM : Nat := 4

/-- `SceneJS.BoundingBox.prototype._changeState`.  Note the source assigns
`this._state = newState` first and only then builds the payload from
`this._state`, so the `oldState` field of the payload reads the already
updated state. -/
def changeState (bb : BoundingBox) (newState : Nat) : BoundingBox × List Event :=
  let bb2 : BoundingBox := { bb with state := newState }
  if bb2.stateListener then
    (bb2, [Event.stateChanged bb2.state newState])
  else
    (bb2, [])

/-- `SceneJS.BoundingBox.prototype._init`.  Extents are assigned before
the `levels` validation; on a validation failure the function returns the
node as mutated so far together with the raised error. -/
def init (bb : BoundingBox) (p : InitParams) : BoundingBox × Option SceneError :=
  let bb2 : BoundingBox :=
    { bb with xmin := p.xmin, ymin := p.ymin, zmin := p.zmin,
              xmax := p.xmax, ymax := p.ymax, zmax := p.zmax }
  match p.levels with
  | Option.none => (bb2, Option.none)
  | Option.some ls =>
    if ls.length ≠ bb2.childCount then
      (bb2, Option.some (SceneError.nodeConfigExpected
        "SceneJS.boundingBox levels property should have a value for each child node"))
    else if levelsOrdered ls = false then
      (bb2, Option.some (SceneError.nodeConfigExpected
        "SceneJS.boundingBox levels property should be an ascending list of unique values"))
    else
      ({ bb2 with levels := Option.some ls }, Option.none)

/-- The eight object-space corner points `_render` builds from the current
extents when a model transform exists. -/
def corners (bb : BoundingBox) : List Point3 :=
  [⟨bb.xmin, bb.ymin, bb.zmin⟩, ⟨bb.xmax, bb.ymin, bb.zmin⟩,
   ⟨bb.xmax, bb.ymax, bb.zmin⟩, ⟨bb.xmin, bb.ymax, bb.zmin⟩,
   ⟨bb.xmin, bb.ymin, bb.zmax⟩, ⟨bb.xmax, bb.ymin, bb.zmax⟩,
   ⟨bb.xmax, bb.ymax, bb.zmax⟩, ⟨bb.xmin, bb.ymax, bb.zmax⟩]

/-- Tail of `_render`'s memo-level-0 block: with a model transform the
corner set is retained for later transformation; with the identity
transform the view box is the extents directly and memo level becomes 2. -/
def geomCoords (bb : BoundingBox) (inp : FrameInput) : BoundingBox :=
  if inp.identity = false then
    { bb with objectCoords := Option.some (corners bb) }
  else
    { bb with
        viewBox := Option.some
          { min := ⟨bb.xmin, bb.ymin, bb.zmin⟩,
            max := ⟨bb.xmax, bb.ymax, bb.zmax⟩ },
        memoLevel := 2 }

/-- `_render`'s `if (this._memoLevel == 0)` block: reset the state to
`STATE_INITIAL`, then either re-run `_init` on the dynamic params (whose
thrown error aborts the frame) or bump the memo level to 1, then derive
geometry from the current transform. -/
def geomMemo0 (bb : BoundingBox) (inp : FrameInput) : BoundingBox × Bool :=
  if bb.memoLevel = 0 then
    let bb1 : BoundingBox := { bb with state := STATE_INITIAL }
    if bb1.fixedParams = false then
      let r := init bb1 inp.params
      if r.2.isSome then (r.1, true)
      else (geomCoords r.1 inp, false)
    else
      (geomCoords { bb1 with memoLevel := 1 } inp, false)
  else
    (bb, false)

/-- `_render`'s `if (this._memoLevel < 2)` block: transform the retained
corners into the view box, and promote to memo level 2 (discarding the
corners) once the transform is fixed and no instancing is active. -/
def geomTransform (bb : BoundingBox) (inp : FrameInput) : BoundingBox :=
  if bb.memoLevel < 2 then
    let bb1 : BoundingBox :=
      { bb with viewBox := Option.some (inp.transformBox (bb.objectCoords.getD [])) }
    if inp.fixed = true ∧ bb1.memoLevel = 1 ∧ inp.instancing = false then
      { bb1 with objectCoords := Option.none, memoLevel := 2 }
    else
      bb1
  else
    bb

/-- The geometry-refresh prefix of `_render` (lines before the locality
tests): the node afterwards, paired with whether the frame aborted inside
a dynamic `_init`. -/
def renderGeometry (bb : BoundingBox) (inp : FrameInput) : BoundingBox × Bool :=
  let r := geomMemo0 bb inp
  if r.2 then r else (geomTransform r.1 inp, false)

/-- The repeated guard `if (newState != origState) this._changeState(newState)`
of `_render`. -/
def stateStep (origState : Nat) (bb : BoundingBox) (newState : Nat) :
    BoundingBox × List Event :=
  if newState ≠ origState then changeState bb newState else (bb, [])

/-- The LOD loop `for (i = levels.length - 1; i >= 0; i--)` of `_render`,
parameterised by the loop counter's starting bound: the first index `i`
below the bound with `levels[i] <= size`, scanning downwards. -/
def scanLevels (ls : List ℚ) (size : ℚ) : Nat → Option Nat
  | 0 => Option.none
  | i + 1 => if ls.getD i 0 ≤ size then Option.some i else scanLevels ls size i

/-- The level the LOD loop of `_render` selects for a projected size. -/
def selectLevel (ls : List ℚ) (size : ℚ) : Option Nat :=
  scanLevels ls size ls.length

/-- The classification cascade of `_render` (everything from
`newState = STATE_OUTSIDE_OUTER_LOCALITY` to the end), with `origState`
and `origLevel` as captured at the top of `_render`. -/
def classify (origState : Nat) (origLevel : Int) (bb : BoundingBox)
    (inp : FrameInput) : FrameResult :=
  if inp.outer then
    if inp.inner then
      match inp.frustum with
      | FrustumResult.intersect | FrustumResult.inside =>
        let sr := stateStep origState bb STATE_INTERSECTING_FRUSTUM
        match sr.1.levels with
        | Option.some ls =>
          match selectLevel ls inp.size with
          | Option.some i =>
            let bb2 : BoundingBox := { sr.1 with level := (i : Int) }
            let evs := sr.2 ++
              (if origLevel ≠ (i : Int) ∧ bb2.lodListener = true then
                [Event.lodSelected origLevel (i : Int)] else [])
            if 0 < bb2.childCount then
              { node := bb2, newState := STATE_INTERSECTING_FRUSTUM,
                selectedLevel := Option.some i, visit := Visit.child i,
                events := evs, calls := ⟨1, 1, 1, 1⟩, aborted := false }
            else
              { node := bb2, newState := STATE_INTERSECTING_FRUSTUM,
                selectedLevel := Option.some i, visit := Visit.all,
                events := evs, calls := ⟨1, 1, 1, 1⟩, aborted := false }
          | Option.none =>
            { node := sr.1, newState := STATE_INTERSECTING_FRUSTUM,
              selectedLevel := Option.none, visit := Visit.none,
              events := sr.2, calls := ⟨1, 1, 1, 1⟩, aborted := false }
        | Option.none =>
          { node := sr.1, newState := STATE_INTERSECTING_FRUSTUM,
            selectedLevel := Option.none, visit := Visit.all,
            events := sr.2, calls := ⟨1, 1, 1, 0⟩, aborted := false }
      | FrustumResult.outside =>
        let sr := stateStep origState bb STATE_INTERSECTING_INNER_LOCALITY
        { node := sr.1, newState := STATE_INTERSECTING_INNER_LOCALITY,
          selectedLevel := Option.none, visit := Visit.none,
          events := sr.2, calls := ⟨1, 1, 1, 0⟩, aborted := false }
    else
      let sr := stateStep origState bb STATE_INTERSECTING_OUTER_LOCALITY
      { node := sr.1, newState := STATE_INTERSECTING_OUTER_LOCALITY,
        selectedLevel := Option.none, visit := Visit.all,
        events := sr.2, calls := ⟨1, 1, 0, 0⟩, aborted := false }
  else
    let sr := stateStep origState bb STATE_OUTSIDE_OUTER_LOCALITY
    { node := sr.1, newState := STATE_OUTSIDE_OUTER_LOCALITY,
      selectedLevel := Option.none, visit := Visit.none,
      events := sr.2, calls := ⟨1, 0, 0, 0⟩, aborted := false }

/-- `SceneJS.BoundingBox.prototype._render`: capture `origLevel` and
`origState`, refresh the geometry caches, then run the classification
cascade.  A frame aborted by a dynamic `_init` throw fires nothing,
visits nothing, and calls no test service. -/
def render (bb : BoundingBox) (inp : FrameInput) : FrameResult :=
  let origLevel := bb.level
  let origState := bb.state
  let g := renderGeometry bb inp
  if g.2 then
    { node := g.1, newState := g.1.state, selectedLevel := Option.none,
      visit := Visit.none, events := [], calls := ⟨0, 0, 0, 0⟩, aborted := true }
  else
    classify origState origLevel g.1 inp

/-! Concrete nodes and frame inputs used as test vectors below. -/

/-- A degenerate view box for frames whose geometry phase is memoized away. -/
def zeroBox : Box3 := { min := ⟨0, 0, 0⟩, max := ⟨0, 0, 0⟩ }

/-- The threshold table of the spec's worked LOD example. -/
def demoLevels : List ℚ := [10, 200, 400, 600]

/-- A fully memoized LOD node with four children, one per threshold. -/
def demoNode : BoundingBox where
  xmin := -2
  ymin := -2
  zmin := -2
  xmax := 2
  ymax := 2
  zmax := 2
  levels := Option.some demoLevels
  level := -1
  state := STATE_INITIAL
  objectCoords := Option.none
  viewBox := Option.some zeroBox
  memoLevel := 2
  fixedParams := true
  childCount := 4
  stateListener := false
  lodListener := false

/-- A frame whose locality and frustum tests all pass, at projected size
`s`, with the node memoized (identity transform, fixed, no instancing). -/
def frameInside (s : ℚ) : FrameInput where
  params := {}
  identity := true
  fixed := true
  instancing := false
  transformBox := fun _ => zeroBox
  outer := true
  inner := true
  frustum := FrustumResult.intersect
  size := s

/-- A frame whose outer-radius test fails. -/
def frameOuterFail : FrameInput := { frameInside 0 with outer := false }

/-- A frame whose outer test passes but whose inner-radius test fails. -/
def frameInnerFail : FrameInput := { frameInside 0 with inner := false }

/-- A frame whose locality tests pass but whose frustum test reports
fully outside. -/
def frameFrustumOut : FrameInput :=
  { frameInside 0 with frustum := FrustumResult.outside }

/-- A plain culling node (no LOD table, no children) that has never been
classified, with a `state-changed` listener registered. -/
def freshNode : BoundingBox :=
  { demoNode with levels := Option.none, childCount := 0, stateListener := true }

/-- `demoNode` after level 2 was selected on an earlier frame, with a
`lod-selected` listener registered. -/
def lodNode : BoundingBox :=
  { demoNode with
      level := 2
      state := STATE_INTERSECTING_FRUSTUM
      lodListener := true }

/-- A successfully constructed node with two children, an ascending
two-entry table, and a previously computed classification. -/
def configuredNode : BoundingBox :=
  { demoNode with
      xmin := 1
      levels := Option.some [1, 2]
      childCount := 2
      state := STATE_INTERSECTING_FRUSTUM
      level := 0 }

/-- A reconfiguration whose `levels` length (1) mismatches
`configuredNode`'s two children, and which also changes `xmin`. -/
def badParams : InitParams := { xmin := 5, levels := Option.some [3] }

end BoundingBox

end SceneJS

/-! ## Helper lemmas -/

open SceneJS SceneJS.BoundingBox

theorem hasStateEvent_append (a b : List SceneJS.Event) :
    hasStateEvent (a ++ b) = (hasStateEvent a || hasStateEvent b) := by
  simp [hasStateEvent, List.any_append]

theorem hasLodEvent_append (a b : List SceneJS.Event) :
    hasLodEvent (a ++ b) = (hasLodEvent a || hasLodEvent b) := by
  simp [hasLodEvent, List.any_append]

theorem stateStep_snd (os : Nat) (bb : BoundingBox) (n : Nat) :
    hasStateEvent (stateStep os bb n).2 = (decide (n ≠ os) && bb.stateListener) := by
  unfold stateStep changeState hasStateEvent
  by_cases h : n ≠ os <;> by_cases hl : bb.stateListener <;>
    simp [h, hl, Event.isStateChanged]

theorem stateStep_snd_lod (os : Nat) (bb : BoundingBox) (n : Nat) :
    hasLodEvent (stateStep os bb n).2 = false := by
  unfold stateStep changeState hasLodEvent
  by_cases h : n ≠ os <;> by_cases hl : bb.stateListener <;>
    simp [h, hl, Event.isLodSelected]

theorem stateStep_state (os : Nat) (bb : BoundingBox) (n : Nat) :
    (stateStep os bb n).1.state = if n ≠ os then n else bb.state := by
  unfold stateStep changeState
  by_cases h : n ≠ os <;> by_cases hl : bb.stateListener <;> simp [h, hl]

theorem stateStep_level (os : Nat) (bb : BoundingBox) (n : Nat) :
    (stateStep os bb n).1.level = bb.level := by
  unfold stateStep changeState
  by_cases h : n ≠ os <;> by_cases hl : bb.stateListener <;> simp [h, hl]

theorem stateStep_levels (os : Nat) (bb : BoundingBox) (n : Nat) :
    (stateStep os bb n).1.levels = bb.levels := by
  unfold stateStep changeState
  by_cases h : n ≠ os <;> by_cases hl : bb.stateListener <;> simp [h, hl]

theorem stateStep_childCount (os : Nat) (bb : BoundingBox) (n : Nat) :
    (stateStep os bb n).1.childCount = bb.childCount := by
  unfold stateStep changeState
  by_cases h : n ≠ os <;> by_cases hl : bb.stateListener <;> simp [h, hl]

theorem stateStep_lodListener (os : Nat) (bb : BoundingBox) (n : Nat) :
    (stateStep os bb n).1.lodListener = bb.lodListener := by
  unfold stateStep changeState
  by_cases h : n ≠ os <;> by_cases hl : bb.stateListener <;> simp [h, hl]

theorem init_preserved (bb : BoundingBox) (p : InitParams) :
    (SceneJS.BoundingBox.init bb p).1.level = bb.level ∧
    (SceneJS.BoundingBox.init bb p).1.state = bb.state ∧
    (SceneJS.BoundingBox.init bb p).1.stateListener = bb.stateListener ∧
    (SceneJS.BoundingBox.init bb p).1.lodListener = bb.lodListener ∧
    (SceneJS.BoundingBox.init bb p).1.childCount = bb.childCount ∧
    (SceneJS.BoundingBox.init bb p).1.memoLevel = bb.memoLevel := by
  unfold SceneJS.BoundingBox.init
  cases hp : p.levels <;> simp
  split <;> (try split) <;> simp

theorem geomCoords_preserved (bb : BoundingBox) (inp : FrameInput) :
    (geomCoords bb inp).level = bb.level ∧
    (geomCoords bb inp).state = bb.state ∧
    (geomCoords bb inp).stateListener = bb.stateListener ∧
    (geomCoords bb inp).lodListener = bb.lodListener ∧
    (geomCoords bb inp).childCount = bb.childCount ∧
    (geomCoords bb inp).levels = bb.levels := by
  unfold geomCoords
  by_cases h : inp.identity = false <;> simp [h]

theorem geomTransform_preserved (bb : BoundingBox) (inp : FrameInput) :
    (geomTransform bb inp).level = bb.level ∧
    (geomTransform bb inp).state = bb.state ∧
    (geomTransform bb inp).stateListener = bb.stateListener ∧
    (geomTransform bb inp).lodListener = bb.lodListener ∧
    (geomTransform bb inp).childCount = bb.childCount ∧
    (geomTransform bb inp).levels = bb.levels := by
  unfold geomTransform
  by_cases h : bb.memoLevel < 2 <;> simp [h]
  split <;> simp

theorem geomMemo0_preserved (bb : BoundingBox) (inp : FrameInput) :
    (geomMemo0 bb inp).1.level = bb.level ∧
    (geomMemo0 bb inp).1.stateListener = bb.stateListener ∧
    (geomMemo0 bb inp).1.lodListener = bb.lodListener ∧
    (geomMemo0 bb inp).1.childCount = bb.childCount := by
  unfold geomMemo0
  by_cases h0 : bb.memoLevel = 0 <;> simp [h0]
  by_cases hf : bb.fixedParams = false <;> simp [hf]
  · split
    · obtain ⟨h1, h2, h3, h4, h5, -⟩ :=
        init_preserved { bb with state := STATE_INITIAL } inp.params
      simp_all
    · obtain ⟨h1, h2, h3, h4, h5, -⟩ :=
        init_preserved { bb with state := STATE_INITIAL } inp.params
      obtain ⟨g1, g2, g3, g4, g5, -⟩ :=
        geomCoords_preserved (SceneJS.BoundingBox.init
          { bb with state := STATE_INITIAL } inp.params).1 inp
      simp_all
  · obtain ⟨g1, g2, g3, g4, g5, -⟩ :=
      geomCoords_preserved { bb with state := STATE_INITIAL, memoLevel := 1 } inp
    simp_all

theorem renderGeometry_preserved (bb : BoundingBox) (inp : FrameInput) :
    (renderGeometry bb inp).1.level = bb.level ∧
    (renderGeometry bb inp).1.stateListener = bb.stateListener ∧
    (renderGeometry bb inp).1.lodListener = bb.lodListener ∧
    (renderGeometry bb inp).1.childCount = bb.childCount := by
  unfold renderGeometry
  obtain ⟨m1, m2, m3, m4⟩ := geomMemo0_preserved bb inp
  by_cases h : (geomMemo0 bb inp).2 <;> simp [h]
  · exact ⟨m1, m2, m3, m4⟩
  · obtain ⟨g1, g2, g3, g4, g5, -⟩ :=
      geomTransform_preserved (geomMemo0 bb inp).1 inp
    simp_all

theorem geomMemo0_nonzero (bb : BoundingBox) (inp : FrameInput)
    (h : bb.memoLevel ≠ 0) :
    geomMemo0 bb inp = (bb, false) := by
  unfold geomMemo0
  simp [h]

theorem renderGeometry_state_nonzero (bb : BoundingBox) (inp : FrameInput)
    (h : bb.memoLevel ≠ 0) :
    (renderGeometry bb inp).1.state = bb.state ∧
    (renderGeometry bb inp).2 = false := by
  unfold renderGeometry
  rw [geomMemo0_nonzero bb inp h]
  obtain ⟨-, g2, -, -, -, -⟩ := geomTransform_preserved bb inp
  simp [g2]

theorem hasStateEvent_lodIte (c : Prop) [Decidable c] (a b : Int) :
    hasStateEvent (if c then [Event.lodSelected a b] else []) = false := by
  split <;> simp [hasStateEvent, Event.isStateChanged]

theorem hasLodEvent_lodIte (c : Prop) [Decidable c] (a b : Int) :
    hasLodEvent (if c then [Event.lodSelected a b] else []) = decide c := by
  split <;> simp_all [hasLodEvent, Event.isLodSelected]

theorem classify_aborted (os : Nat) (ol : Int) (bb : BoundingBox)
    (inp : FrameInput) :
    (classify os ol bb inp).aborted = false := by
  unfold classify
  by_cases ho : inp.outer = true <;> simp [ho]
  by_cases hi : inp.inner = true <;> simp [hi]
  cases hf : inp.frustum <;> simp
  all_goals
    rw [stateStep_levels]
    cases hlv : bb.levels <;> simp
    cases hsel : selectLevel _ inp.size <;> simp
    split <;> simp

theorem classify_eq_outer_false (os : Nat) (ol : Int) (bb : BoundingBox)
    (inp : FrameInput) (h : inp.outer = false) :
    classify os ol bb inp =
      { node := (stateStep os bb STATE_OUTSIDE_OUTER_LOCALITY).1,
        newState := STATE_OUTSIDE_OUTER_LOCALITY,
        selectedLevel := Option.none, visit := Visit.none,
        events := (stateStep os bb STATE_OUTSIDE_OUTER_LOCALITY).2,
        calls := ⟨1, 0, 0, 0⟩, aborted := false } := by
  unfold classify
  simp [h]

theorem classify_eq_inner_false (os : Nat) (ol : Int) (bb : BoundingBox)
    (inp : FrameInput) (ho : inp.outer = true) (hi : inp.inner = false) :
    classify os ol bb inp =
      { node := (stateStep os bb STATE_INTERSECTING_OUTER_LOCALITY).1,
        newState := STATE_INTERSECTING_OUTER_LOCALITY,
        selectedLevel := Option.none, visit := Visit.all,
        events := (stateStep os bb STATE_INTERSECTING_OUTER_LOCALITY).2,
        calls := ⟨1, 1, 0, 0⟩, aborted := false } := by
  unfold classify
  simp [ho, hi]

theorem classify_eq_frustum_out (os : Nat) (ol : Int) (bb : BoundingBox)
    (inp : FrameInput) (ho : inp.outer = true) (hi : inp.inner = true)
    (hf : inp.frustum = FrustumResult.outside) :
    classify os ol bb inp =
      { node := (stateStep os bb STATE_INTERSECTING_INNER_LOCALITY).1,
        newState := STATE_INTERSECTING_INNER_LOCALITY,
        selectedLevel := Option.none, visit := Visit.none,
        events := (stateStep os bb STATE_INTERSECTING_INNER_LOCALITY).2,
        calls := ⟨1, 1, 1, 0⟩, aborted := false } := by
  unfold classify
  simp [ho, hi, hf]

theorem classify_eq_levels_none (os : Nat) (ol : Int) (bb : BoundingBox)
    (inp : FrameInput) (ho : inp.outer = true) (hi : inp.inner = true)
    (hf : inp.frustum ≠ FrustumResult.outside)
    (hlv : bb.levels = Option.none) :
    classify os ol bb inp =
      { node := (stateStep os bb STATE_INTERSECTING_FRUSTUM).1,
        newState := STATE_INTERSECTING_FRUSTUM,
        selectedLevel := Option.none, visit := Visit.all,
        events := (stateStep os bb STATE_INTERSECTING_FRUSTUM).2,
        calls := ⟨1, 1, 1, 0⟩, aborted := false } := by
  unfold classify
  cases hfc : inp.frustum <;> simp_all [stateStep_levels]

theorem classify_eq_sel_none (os : Nat) (ol : Int) (bb : BoundingBox)
    (inp : FrameInput) (ls : List ℚ) (ho : inp.outer = true)
    (hi : inp.inner = true) (hf : inp.frustum ≠ FrustumResult.outside)
    (hlv : bb.levels = Option.some ls)
    (hsel : selectLevel ls inp.size = Option.none) :
    classify os ol bb inp =
      { node := (stateStep os bb STATE_INTERSECTING_FRUSTUM).1,
        newState := STATE_INTERSECTING_FRUSTUM,
        selectedLevel := Option.none, visit := Visit.none,
        events := (stateStep os bb STATE_INTERSECTING_FRUSTUM).2,
        calls := ⟨1, 1, 1, 1⟩, aborted := false } := by
  unfold classify
  cases hfc : inp.frustum <;> simp_all [stateStep_levels]

theorem classify_eq_sel_some (os : Nat) (ol : Int) (bb : BoundingBox)
    (inp : FrameInput) (ls : List ℚ) (i : Nat) (ho : inp.outer = true)
    (hi : inp.inner = true) (hf : inp.frustum ≠ FrustumResult.outside)
    (hlv : bb.levels = Option.some ls)
    (hsel : selectLevel ls inp.size = Option.some i) :
    classify os ol bb inp =
      { node := { (stateStep os bb STATE_INTERSECTING_FRUSTUM).1 with
                    level := (i : Int) },
        newState := STATE_INTERSECTING_FRUSTUM,
        selectedLevel := Option.some i,
        visit := if 0 < bb.childCount then Visit.child i else Visit.all,
        events := (stateStep os bb STATE_INTERSECTING_FRUSTUM).2 ++
          (if ol ≠ (i : Int) ∧ bb.lodListener = true then
            [Event.lodSelected ol (i : Int)] else []),
        calls := ⟨1, 1, 1, 1⟩, aborted := false } := by
  have hco := stateStep_childCount os bb STATE_INTERSECTING_FRUSTUM
  have hlo := stateStep_lodListener os bb STATE_INTERSECTING_FRUSTUM
  unfold classify
  cases hfc : inp.frustum <;> simp_all [stateStep_levels] <;>
    split <;> simp_all

theorem classify_fired_iff (os : Nat) (ol : Int) (bb : BoundingBox)
    (inp : FrameInput) :
    (hasStateEvent (classify os ol bb inp).events = true) ↔
      (bb.stateListener = true ∧ (classify os ol bb inp).newState ≠ os) := by
  cases ho : inp.outer
  · rw [classify_eq_outer_false os ol bb inp ho]
    simp [stateStep_snd, and_comm]
  · cases hi : inp.inner
    · rw [classify_eq_inner_false os ol bb inp ho hi]
      simp [stateStep_snd, and_comm]
    · cases hf : inp.frustum
      case outside =>
        rw [classify_eq_frustum_out os ol bb inp ho hi hf]
        simp [stateStep_snd, and_comm]
      all_goals
        have hf2 : inp.frustum ≠ FrustumResult.outside := by simp [hf]
        rcases hlv : bb.levels with - | ls
        · rw [classify_eq_levels_none os ol bb inp ho hi hf2 hlv]
          simp [stateStep_snd, and_comm]
        · rcases hsel : selectLevel ls inp.size with - | i
          · rw [classify_eq_sel_none os ol bb inp ls ho hi hf2 hlv hsel]
            simp [stateStep_snd, and_comm]
          · rw [classify_eq_sel_some os ol bb inp ls i ho hi hf2 hlv hsel]
            simp [hasStateEvent_append, stateStep_snd, hasStateEvent_lodIte,
              and_comm]

theorem classify_shape (os : Nat) (ol : Int) (bb : BoundingBox)
    (inp : FrameInput) :
    (∃ n v c, classify os ol bb inp =
      { node := (stateStep os bb n).1, newState := n,
        selectedLevel := Option.none, visit := v,
        events := (stateStep os bb n).2, calls := c, aborted := false }) ∨
    (∃ ls i, bb.levels = Option.some ls ∧
      selectLevel ls inp.size = Option.some i ∧
      classify os ol bb inp =
      { node := { (stateStep os bb STATE_INTERSECTING_FRUSTUM).1 with
                    level := (i : Int) },
        newState := STATE_INTERSECTING_FRUSTUM,
        selectedLevel := Option.some i,
        visit := if 0 < bb.childCount then Visit.child i else Visit.all,
        events := (stateStep os bb STATE_INTERSECTING_FRUSTUM).2 ++
          (if ol ≠ (i : Int) ∧ bb.lodListener = true then
            [Event.lodSelected ol (i : Int)] else []),
        calls := ⟨1, 1, 1, 1⟩, aborted := false }) := by
  cases ho : inp.outer
  · exact Or.inl ⟨_, _, _, classify_eq_outer_false os ol bb inp ho⟩
  · cases hi : inp.inner
    · exact Or.inl ⟨_, _, _, classify_eq_inner_false os ol bb inp ho hi⟩
    · cases hf : inp.frustum
      case outside =>
        exact Or.inl ⟨_, _, _, classify_eq_frustum_out os ol bb inp ho hi hf⟩
      all_goals
        have hf2 : inp.frustum ≠ FrustumResult.outside := by simp [hf]
        rcases hlv : bb.levels with - | ls
        · exact Or.inl ⟨_, _, _,
            classify_eq_levels_none os ol bb inp ho hi hf2 hlv⟩
        · rcases hsel : selectLevel ls inp.size with - | i
          · exact Or.inl ⟨_, _, _,
              classify_eq_sel_none os ol bb inp ls ho hi hf2 hlv hsel⟩
          · refine Or.inr ⟨ls, i, ?_, ?_,
              classify_eq_sel_some os ol bb inp ls i ho hi hf2 hlv hsel⟩ <;>
              simp [hlv, hsel]

theorem stateStep_fired_state (os : Nat) (bb : BoundingBox) (n : Nat)
    (h : hasStateEvent (stateStep os bb n).2 = true) :
    (stateStep os bb n).1.state = n := by
  rw [stateStep_snd] at h
  have hne : n ≠ os := by
    intro hc
    subst hc
    simp at h
  rw [stateStep_state]
  simp [hne]

theorem classify_fired_state (os : Nat) (ol : Int) (bb : BoundingBox)
    (inp : FrameInput)
    (h : hasStateEvent (classify os ol bb inp).events = true) :
    (classify os ol bb inp).node.state = (classify os ol bb inp).newState := by
  rcases classify_shape os ol bb inp with ⟨n, v, c, hE⟩ | ⟨ls, i, hlv, hsel, hE⟩
  · rw [hE] at h ⊢
    exact stateStep_fired_state os bb n h
  · rw [hE] at h ⊢
    rw [hasStateEvent_append, hasStateEvent_lodIte] at h
    simp only [Bool.or_false] at h
    simpa using stateStep_fired_state os bb STATE_INTERSECTING_FRUSTUM h

theorem classify_lod_iff (os : Nat) (ol : Int) (bb : BoundingBox)
    (inp : FrameInput) :
    (hasLodEvent (classify os ol bb inp).events = true) ↔
      (bb.lodListener = true ∧ ∃ i,
        (classify os ol bb inp).selectedLevel = Option.some i ∧
        ol ≠ (i : Int)) := by
  rcases classify_shape os ol bb inp with ⟨n, v, c, hE⟩ | ⟨ls, i, hlv, hsel, hE⟩
  · rw [hE]
    simp [stateStep_snd_lod]
  · rw [hE]
    simp [hasLodEvent_append, stateStep_snd_lod, hasLodEvent_lodIte, and_comm]

theorem classify_level_none (os : Nat) (ol : Int) (bb : BoundingBox)
    (inp : FrameInput)
    (h : (classify os ol bb inp).selectedLevel = Option.none) :
    (classify os ol bb inp).node.level = bb.level := by
  rcases classify_shape os ol bb inp with ⟨n, v, c, hE⟩ | ⟨ls, i, hlv, hsel, hE⟩
  · rw [hE]
    exact stateStep_level os bb n
  · rw [hE] at h
    simp at h

theorem classify_level_some (os : Nat) (ol : Int) (bb : BoundingBox)
    (inp : FrameInput) (i : Nat)
    (h : (classify os ol bb inp).selectedLevel = Option.some i) :
    (classify os ol bb inp).node.level = (i : Int) := by
  rcases classify_shape os ol bb inp with ⟨n, v, c, hE⟩ | ⟨ls, j, hlv, hsel, hE⟩
  · rw [hE] at h
    simp at h
  · rw [hE] at h ⊢
    simp only [Option.some.injEq] at h
    subst h
    simp

theorem classify_selected (os : Nat) (ol : Int) (bb : BoundingBox)
    (inp : FrameInput) (i : Nat)
    (h : (classify os ol bb inp).selectedLevel = Option.some i) :
    ∃ ls, bb.levels = Option.some ls ∧
      selectLevel ls inp.size = Option.some i := by
  rcases classify_shape os ol bb inp with ⟨n, v, c, hE⟩ | ⟨ls, j, hlv, hsel, hE⟩
  · rw [hE] at h
    simp at h
  · rw [hE] at h
    simp only [Option.some.injEq] at h
    subst h
    exact ⟨ls, hlv, hsel⟩

theorem classify_visit_some (os : Nat) (ol : Int) (bb : BoundingBox)
    (inp : FrameInput) (i : Nat)
    (h : (classify os ol bb inp).selectedLevel = Option.some i) :
    (classify os ol bb inp).visit =
      if 0 < bb.childCount then Visit.child i else Visit.all := by
  rcases classify_shape os ol bb inp with ⟨n, v, c, hE⟩ | ⟨ls, j, hlv, hsel, hE⟩
  · rw [hE] at h
    simp at h
  · rw [hE] at h ⊢
    simp only [Option.some.injEq] at h
    subst h
    simp

theorem scanLevels_some_lt (ls : List ℚ) (s : ℚ) :
    ∀ n i, scanLevels ls s n = Option.some i → i < n := by
  intro n
  induction n with
  | zero => intro i h; simp [scanLevels] at h
  | succ n ih =>
    intro i h
    unfold scanLevels at h
    split at h
    · cases h
      exact Nat.lt_succ_self n
    · exact Nat.lt_succ_of_lt (ih i h)

theorem selectLevel_lt (ls : List ℚ) (s : ℚ) (i : Nat)
    (h : selectLevel ls s = Option.some i) : i < ls.length :=
  scanLevels_some_lt ls s ls.length i h

theorem renderGeometry_levels_fixed (bb : BoundingBox) (inp : FrameInput)
    (h : bb.fixedParams = true) :
    (renderGeometry bb inp).1.levels = bb.levels := by
  unfold renderGeometry geomMemo0
  by_cases h0 : bb.memoLevel = 0 <;> simp [h0, h]
  · obtain ⟨-, -, -, -, -, g6⟩ :=
      geomCoords_preserved { bb with state := STATE_INITIAL, memoLevel := 1 } inp
    obtain ⟨-, -, -, -, -, t6⟩ :=
      geomTransform_preserved
        (geomCoords { bb with state := STATE_INITIAL, memoLevel := 1 } inp) inp
    simp_all
  · obtain ⟨-, -, -, -, -, t6⟩ := geomTransform_preserved bb inp
    simp_all

theorem scanLevels_eq_some_iff (ls : List ℚ) (s : ℚ) :
    ∀ n i, scanLevels ls s n = Option.some i ↔
      (i < n ∧ ls.getD i 0 ≤ s ∧ ∀ j, j < n → ls.getD j 0 ≤ s → j ≤ i) := by
  intro n
  induction n with
  | zero =>
    intro i
    simp [scanLevels]
  | succ n ih =>
    intro i
    unfold scanLevels
    constructor
    · intro h
      split at h
      · rename_i hn
        cases h
        exact ⟨Nat.lt_succ_self n, hn, fun j hj _ => Nat.lt_succ_iff.mp hj⟩
      · rename_i hn
        obtain ⟨h1, h2, h3⟩ := (ih i).mp h
        refine ⟨Nat.lt_succ_of_lt h1, h2, ?_⟩
        intro j hj hle
        rcases Nat.lt_succ_iff_lt_or_eq.mp hj with hj2 | rfl
        · exact h3 j hj2 hle
        · exact absurd hle hn
    · rintro ⟨h1, h2, h3⟩
      split
      · rename_i hn
        have hni : n ≤ i := h3 n (Nat.lt_succ_self n) hn
        have hin : i = n := Nat.le_antisymm (Nat.lt_succ_iff.mp h1) hni
        simp [hin]
      · rename_i hn
        apply (ih i).mpr
        have hin : i < n := by
          rcases Nat.lt_succ_iff_lt_or_eq.mp h1 with h | rfl
          · exact h
          · exact absurd h2 hn
        exact ⟨hin, h2, fun j hj hle => h3 j (Nat.lt_succ_of_lt hj) hle⟩

theorem selectLevel_eq_some_iff (ls : List ℚ) (s : ℚ) (i : Nat) :
    selectLevel ls s = Option.some i ↔
      (i < ls.length ∧ ls.getD i 0 ≤ s ∧
        ∀ j, j < ls.length → ls.getD j 0 ≤ s → j ≤ i) :=
  scanLevels_eq_some_iff ls s ls.length i

theorem render_not_aborted (bb : BoundingBox) (inp : FrameInput)
    (h : (render bb inp).aborted = false) :
    render bb inp = classify bb.state bb.level (renderGeometry bb inp).1 inp := by
  unfold render at h ⊢
  by_cases hg : (renderGeometry bb inp).2 <;> simp [hg] at h ⊢

theorem render_aborted_node (bb : BoundingBox) (inp : FrameInput)
    (h : (render bb inp).aborted = true) :
    render bb inp =
      { node := (renderGeometry bb inp).1,
        newState := (renderGeometry bb inp).1.state,
        selectedLevel := Option.none, visit := Visit.none,
        events := [], calls := ⟨0, 0, 0, 0⟩, aborted := true } := by
  unfold render at h ⊢
  by_cases hg : (renderGeometry bb inp).2 <;> simp [hg] at h ⊢
  exact absurd h (by simp [classify_aborted])

theorem render_fired_iff (bb : BoundingBox) (inp : FrameInput)
    (h : (render bb inp).aborted = false) :
    (hasStateEvent (render bb inp).events = true) ↔
      (bb.stateListener = true ∧ (render bb inp).newState ≠ bb.state) := by
  rw [render_not_aborted bb inp h]
  have hL := (renderGeometry_preserved bb inp).2.1
  have := classify_fired_iff bb.state bb.level (renderGeometry bb inp).1 inp
  rw [hL] at this
  exact this

theorem render_fired_state (bb : BoundingBox) (inp : FrameInput)
    (h : (render bb inp).aborted = false)
    (hf : hasStateEvent (render bb inp).events = true) :
    (render bb inp).node.state = (render bb inp).newState := by
  rw [render_not_aborted bb inp h] at hf ⊢
  exact classify_fired_state _ _ _ _ hf

theorem render_lod_iff (bb : BoundingBox) (inp : FrameInput)
    (h : (render bb inp).aborted = false) :
    (hasLodEvent (render bb inp).events = true) ↔
      (bb.lodListener = true ∧ ∃ i,
        (render bb inp).selectedLevel = Option.some i ∧
        bb.level ≠ (i : Int)) := by
  rw [render_not_aborted bb inp h]
  have hL := (renderGeometry_preserved bb inp).2.2.1
  have := classify_lod_iff bb.state bb.level (renderGeometry bb inp).1 inp
  rw [hL] at this
  exact this

theorem render_level_none (bb : BoundingBox) (inp : FrameInput)
    (h : (render bb inp).selectedLevel = Option.none) :
    (render bb inp).node.level = bb.level := by
  cases ha : (render bb inp).aborted
  · rw [render_not_aborted bb inp ha] at h ⊢
    rw [classify_level_none _ _ _ _ h]
    exact (renderGeometry_preserved bb inp).1
  · rw [render_aborted_node bb inp ha]
    exact (renderGeometry_preserved bb inp).1

theorem render_level_some (bb : BoundingBox) (inp : FrameInput) (i : Nat)
    (h : (render bb inp).selectedLevel = Option.some i) :
    (render bb inp).node.level = (i : Int) := by
  cases ha : (render bb inp).aborted
  · rw [render_not_aborted bb inp ha] at h ⊢
    exact classify_level_some _ _ _ _ _ h
  · rw [render_aborted_node bb inp ha] at h
    simp at h

theorem render_selected (bb : BoundingBox) (inp : FrameInput) (i : Nat)
    (h : (render bb inp).selectedLevel = Option.some i) :
    ∃ ls, (renderGeometry bb inp).1.levels = Option.some ls ∧
      selectLevel ls inp.size = Option.some i := by
  cases ha : (render bb inp).aborted
  · rw [render_not_aborted bb inp ha] at h
    exact classify_selected _ _ _ _ _ h
  · rw [render_aborted_node bb inp ha] at h
    simp at h

theorem render_visit_some (bb : BoundingBox) (inp : FrameInput) (i : Nat)
    (h : (render bb inp).selectedLevel = Option.some i) :
    (render bb inp).visit =
      if 0 < bb.childCount then Visit.child i else Visit.all := by
  cases ha : (render bb inp).aborted
  · rw [render_not_aborted bb inp ha] at h ⊢
    have hc := (renderGeometry_preserved bb inp).2.2.2
    have := classify_visit_some bb.state bb.level (renderGeometry bb inp).1 inp i h
    rw [hc] at this
    exact this
  · rw [render_aborted_node bb inp ha] at h
    simp at h

/-! ## Claims -/

/-- C1: at `INTERSECT_FRUSTUM` with a threshold table, the selected level
is the highest index whose threshold is `≤` the projected size (found by
scanning from the highest index down); with thresholds `[10,200,400,600]`,
size 250 selects index 1 and visits child 1, size 1000 selects index 3,
and size 5 selects no level and visits nothing. -/
theorem lod_selection_picks_highest_threshold :
    (∀ (ls : List ℚ) (s : ℚ) (i : Nat),
      selectLevel ls s = Option.some i ↔
        (i < ls.length ∧ ls.getD i 0 ≤ s ∧
          ∀ j, j < ls.length → ls.getD j 0 ≤ s → j ≤ i)) ∧
    (render demoNode (frameInside 250)).selectedLevel = Option.some 1 ∧
    (render demoNode (frameInside 250)).visit = Visit.child 1 ∧
    (render demoNode (frameInside 1000)).selectedLevel = Option.some 3 ∧
    (render demoNode (frameInside 1000)).visit = Visit.child 3 ∧
    (render demoNode (frameInside 5)).selectedLevel = Option.none ∧
    (render demoNode (frameInside 5)).visit = Visit.none := by
  refine ⟨selectLevel_eq_some_iff, ?_, ?_, ?_, ?_, ?_, ?_⟩ <;> decide

/-- Witness for C1: the characterization applied to the spec's worked
example, deciding each side condition concretely. -/
theorem lod_selection_picks_highest_threshold_witness :
    selectLevel demoLevels 250 = Option.some 1 :=
  (lod_selection_picks_highest_threshold.1 demoLevels 250 1).mpr
    ⟨by decide, by decide, by decide⟩

/-- C2: a frame whose outer-radius test fails computes classification
`OUTSIDE_OUTER`, visits no child, and never invokes the inner-radius
test, the frustum test, or the projected-size query; when the memo level
was nonzero (so the stored state tracks the computation) the stored state
is `OUTSIDE_OUTER` afterwards as well. -/
theorem outside_outer_short_circuits (bb : BoundingBox) (inp : FrameInput)
    (ha : (render bb inp).aborted = false) (h : inp.outer = false) :
    (render bb inp).newState = STATE_OUTSIDE_OUTER_LOCALITY ∧
    (render bb inp).visit = Visit.none ∧
    (render bb inp).calls.inner = 0 ∧
    (render bb inp).calls.frustum = 0 ∧
    (render bb inp).calls.size = 0 ∧
    (bb.memoLevel ≠ 0 →
      (render bb inp).node.state = STATE_OUTSIDE_OUTER_LOCALITY) := by
  rw [render_not_aborted bb inp ha,
    classify_eq_outer_false bb.state bb.level (renderGeometry bb inp).1 inp h]
  refine ⟨rfl, rfl, rfl, rfl, rfl, ?_⟩
  intro hm
  have hgs := (renderGeometry_state_nonzero bb inp hm).1
  rw [stateStep_state]
  split
  · rfl
  · rename_i hns
    rw [hgs]
    exact (not_ne_iff.mp hns).symm

/-- Witness for C2 at a concrete node and frame. -/
theorem outside_outer_short_circuits_witness :
    (render freshNode frameOuterFail).visit = Visit.none ∧
    (render freshNode frameOuterFail).calls.inner = 0 ∧
    (render freshNode frameOuterFail).calls.frustum = 0 ∧
    (render freshNode frameOuterFail).node.state =
      STATE_OUTSIDE_OUTER_LOCALITY := by
  obtain ⟨-, h2, h3, h4, -, h6⟩ :=
    outside_outer_short_circuits freshNode frameOuterFail (by decide) (by decide)
  exact ⟨h2, h3, h4, h6 (by decide)⟩

/-- C3: a frame whose locality tests pass but whose frustum test reports
fully outside visits no child, and its computed classification is
`INTERSECT_INNER` — frustum failure has no distinct state value; when the
memo level was nonzero the stored state is `INTERSECT_INNER` afterwards. -/
theorem frustum_fail_keeps_inner_state (bb : BoundingBox) (inp : FrameInput)
    (ha : (render bb inp).aborted = false) (ho : inp.outer = true)
    (hi : inp.inner = true) (hf : inp.frustum = FrustumResult.outside) :
    (render bb inp).newState = STATE_INTERSECTING_INNER_LOCALITY ∧
    (render bb inp).visit = Visit.none ∧
    (bb.memoLevel ≠ 0 →
      (render bb inp).node.state = STATE_INTERSECTING_INNER_LOCALITY) := by
  rw [render_not_aborted bb inp ha,
    classify_eq_frustum_out bb.state bb.level (renderGeometry bb inp).1 inp
      ho hi hf]
  refine ⟨rfl, rfl, ?_⟩
  intro hm
  have hgs := (renderGeometry_state_nonzero bb inp hm).1
  rw [stateStep_state]
  split
  · rfl
  · rename_i hns
    rw [hgs]
    exact (not_ne_iff.mp hns).symm

/-- Witness for C3 at a concrete node and frame. -/
theorem frustum_fail_keeps_inner_state_witness :
    (render freshNode frameFrustumOut).newState =
      STATE_INTERSECTING_INNER_LOCALITY ∧
    (render freshNode frameFrustumOut).visit = Visit.none ∧
    (render freshNode frameFrustumOut).node.state =
      STATE_INTERSECTING_INNER_LOCALITY := by
  obtain ⟨h1, h2, h3⟩ := frustum_fail_keeps_inner_state freshNode
    frameFrustumOut (by decide) (by decide) (by decide) (by decide)
  exact ⟨h1, h2, h3 (by decide)⟩

/-- C4 (code bug): `_changeState` assigns `this._state = newState` before
building the payload, so a delivered `state-changed` event carries the NEW
state in its `oldState` field.  Here the node was in `STATE_INITIAL`, the
outer test fails, and the delivered payload is `oldState = 1, newState = 1`
instead of the documented `oldState = 0, newState = 1`. -/
theorem state_event_payload_oldState_equals_newState :
    (render freshNode frameOuterFail).events =
      [Event.stateChanged STATE_OUTSIDE_OUTER_LOCALITY
        STATE_OUTSIDE_OUTER_LOCALITY] ∧
    freshNode.state = STATE_INITIAL ∧
    (changeState freshNode STATE_OUTSIDE_OUTER_LOCALITY).2 =
      [Event.stateChanged STATE_OUTSIDE_OUTER_LOCALITY
        STATE_OUTSIDE_OUTER_LOCALITY] := by
  decide

/-- C5: with a `state-changed` listener registered, the notification fires
on a completed frame iff the computed state differs from the state held
before that frame's evaluation; and on two consecutive frames computing
the same state (the second starting from the state the first left behind)
it cannot fire at both. -/
theorem state_event_fires_iff_state_changed (bb : BoundingBox)
    (inp : FrameInput) (ha : (render bb inp).aborted = false)
    (hl : bb.stateListener = true) :
    ((hasStateEvent (render bb inp).events = true) ↔
      (render bb inp).newState ≠ bb.state) ∧
    (∀ (bb2 : BoundingBox) (inp2 : FrameInput),
      bb2.state = (render bb inp).node.state →
      (render bb2 inp2).aborted = false →
      (render bb2 inp2).newState = (render bb inp).newState →
      hasStateEvent (render bb inp).events = true →
      hasStateEvent (render bb2 inp2).events = false) := by
  constructor
  · have h := render_fired_iff bb inp ha
    simp [hl] at h
    exact h
  · intro bb2 inp2 hstate ha2 hns hf
    have hstored := render_fired_state bb inp ha hf
    have heq : (render bb2 inp2).newState = bb2.state := by
      rw [hns, hstate]
      exact hstored.symm
    cases hfe : hasStateEvent (render bb2 inp2).events
    · rfl
    · exact absurd heq ((render_fired_iff bb2 inp2 ha2).mp hfe).2

/-- Witness for C5: a first frame that fires, and a second frame from the
resulting state computing the same classification that does not. -/
theorem state_event_fires_iff_state_changed_witness :
    hasStateEvent (render freshNode frameOuterFail).events = true ∧
    hasStateEvent
      (render { freshNode with state := 1 } frameOuterFail).events = false := by
  obtain ⟨h1, h2⟩ := state_event_fires_iff_state_changed freshNode
    frameOuterFail (by decide) (by decide)
  refine ⟨h1.mpr (by decide), ?_⟩
  exact h2 { freshNode with state := 1 } frameOuterFail (by decide) (by decide)
    (by decide) (h1.mpr (by decide))

/-- C6 counterexample: `lodNode` previously selected level 2 and has a
`lod-selected` listener; on a frame whose projected size 5 is below the
lowest threshold the claim predicts a notification with `newLevel = -1`,
but the code fires no event at all and leaves the stored level at 2. -/
theorem no_lod_event_on_deselect :
    (render lodNode (frameInside 5)).events = [] ∧
    (render lodNode (frameInside 5)).selectedLevel = Option.none ∧
    (render lodNode (frameInside 5)).node.level = 2 := by
  decide

/-- C6 (amended): with a `lod-selected` listener registered, the
notification fires on a completed frame iff some level is selected this
frame and its index differs from the stored level; when no level is
selected nothing fires and the stored level is left unchanged — there is
no transition to "none selected" after a selection. -/
theorem lod_event_fires_iff_new_selection_differs (bb : BoundingBox)
    (inp : FrameInput) (ha : (render bb inp).aborted = false)
    (hl : bb.lodListener = true) :
    ((hasLodEvent (render bb inp).events = true) ↔
      ∃ i, (render bb inp).selectedLevel = Option.some i ∧
        bb.level ≠ (i : Int)) ∧
    ((render bb inp).selectedLevel = Option.none →
      (render bb inp).node.level = bb.level) := by
  constructor
  · have h := render_lod_iff bb inp ha
    simp [hl] at h
    exact h
  · exact render_level_none bb inp

/-- Witness for C6's amended claim: the selection moving from stored
level 2 to level 1 fires the notification. -/
theorem lod_event_fires_iff_new_selection_differs_witness :
    hasLodEvent (render lodNode (frameInside 250)).events = true := by
  obtain ⟨h1, -⟩ := lod_event_fires_iff_new_selection_differs lodNode
    (frameInside 250) (by decide) (by decide)
  exact h1.mpr ⟨1, by decide, by decide⟩

/-- C7 counterexample: reconfiguring `configuredNode` with `badParams`
raises the configuration error, yet `xmin` has already been overwritten
from 1 to 5 — the node does enter a partially mutated state. -/
theorem init_error_overwrites_extents :
    (SceneJS.BoundingBox.init configuredNode badParams).2.isSome = true ∧
    (SceneJS.BoundingBox.init configuredNode badParams).1.xmin = 5 ∧
    configuredNode.xmin = 1 := by
  decide

/-- C7 (amended): a `levels` sequence whose length mismatches the child
count or which is not strictly ascending makes `_init` raise the fatal
configuration error synchronously, leaving the prior levels table, the
prior classification state and the prior selected level unchanged; the
extents however are assigned before validation and may change. -/
theorem init_rejects_invalid_levels_keeps_state (bb : BoundingBox)
    (p : InitParams) (ls : List ℚ) (hp : p.levels = Option.some ls)
    (hbad : ls.length ≠ bb.childCount ∨ levelsOrdered ls = false) :
    (SceneJS.BoundingBox.init bb p).2.isSome = true ∧
    (SceneJS.BoundingBox.init bb p).1.levels = bb.levels ∧
    (SceneJS.BoundingBox.init bb p).1.state = bb.state ∧
    (SceneJS.BoundingBox.init bb p).1.level = bb.level := by
  unfold SceneJS.BoundingBox.init
  rw [hp]
  rcases hbad with h | h
  · simp [h]
  · by_cases hlen : ls.length ≠ bb.childCount <;> simp [hlen, h]

/-- Witness for C7's amended claim at the concrete reconfiguration. -/
theorem init_rejects_invalid_levels_keeps_state_witness :
    (SceneJS.BoundingBox.init configuredNode badParams).2.isSome = true ∧
    (SceneJS.BoundingBox.init configuredNode badParams).1.levels =
      configuredNode.levels ∧
    (SceneJS.BoundingBox.init configuredNode badParams).1.state =
      configuredNode.state := by
  obtain ⟨h1, h2, h3, -⟩ := init_rejects_invalid_levels_keeps_state
    configuredNode badParams [3] (by decide) (Or.inl (by decide))
  exact ⟨h1, h2, h3⟩

/-- C8: a frame whose outer test passes and whose inner-radius test fails
computes classification `INTERSECT_OUTER`, still visits all children
(content staging), and never invokes the frustum test or the
projected-size query; when the memo level was nonzero the stored state is
`INTERSECT_OUTER` afterwards. -/
theorem intersect_outer_still_visits_children (bb : BoundingBox)
    (inp : FrameInput) (ha : (render bb inp).aborted = false)
    (ho : inp.outer = true) (hi : inp.inner = false) :
    (render bb inp).newState = STATE_INTERSECTING_OUTER_LOCALITY ∧
    (render bb inp).visit = Visit.all ∧
    (render bb inp).calls.frustum = 0 ∧
    (render bb inp).calls.size = 0 ∧
    (bb.memoLevel ≠ 0 →
      (render bb inp).node.state = STATE_INTERSECTING_OUTER_LOCALITY) := by
  rw [render_not_aborted bb inp ha,
    classify_eq_inner_false bb.state bb.level (renderGeometry bb inp).1 inp
      ho hi]
  refine ⟨rfl, rfl, rfl, rfl, ?_⟩
  intro hm
  have hgs := (renderGeometry_state_nonzero bb inp hm).1
  rw [stateStep_state]
  split
  · rfl
  · rename_i hns
    rw [hgs]
    exact (not_ne_iff.mp hns).symm

/-- Witness for C8 at a concrete node and frame. -/
theorem intersect_outer_still_visits_children_witness :
    (render freshNode frameInnerFail).visit = Visit.all ∧
    (render freshNode frameInnerFail).calls.frustum = 0 ∧
    (render freshNode frameInnerFail).node.state =
      STATE_INTERSECTING_OUTER_LOCALITY := by
  obtain ⟨-, h2, h3, -, h5⟩ := intersect_outer_still_visits_children
    freshNode frameInnerFail (by decide) (by decide) (by decide)
  exact ⟨h2, h3, h5 (by decide)⟩

/-- C9: when a level `i` is selected, a node with children visits exactly
the child at index `i`; a node with no children takes the visit-all path
(over zero children); and a node with a single child and a one-entry table
always visits that child (index 0) whenever any level is selected. -/
theorem lod_child_dispatch (bb : BoundingBox) (inp : FrameInput) (i : Nat)
    (_ha : (render bb inp).aborted = false)
    (hsel : (render bb inp).selectedLevel = Option.some i) :
    (0 < bb.childCount → (render bb inp).visit = Visit.child i) ∧
    (bb.childCount = 0 → (render bb inp).visit = Visit.all) ∧
    (bb.fixedParams = true → bb.childCount = 1 →
      ∀ ls, bb.levels = Option.some ls → ls.length = 1 →
        (render bb inp).visit = Visit.child 0) := by
  have hv := render_visit_some bb inp i hsel
  refine ⟨?_, ?_, ?_⟩
  · intro hc
    rw [hv]
    simp [hc]
  · intro hc
    rw [hv]
    simp [hc]
  · intro hfx hc ls hlv hlen
    obtain ⟨ls2, hlv2, hsel2⟩ := render_selected bb inp i hsel
    rw [renderGeometry_levels_fixed bb inp hfx, hlv] at hlv2
    injection hlv2 with hls
    subst hls
    have hlt := selectLevel_lt ls inp.size i hsel2
    rw [hlen] at hlt
    have hi0 : i = 0 := Nat.lt_one_iff.mp hlt
    subst hi0
    rw [hv]
    simp [hc]

/-- Witness for C9: `demoNode` has one child per threshold and visits
exactly child 1 at projected size 250. -/
theorem lod_child_dispatch_witness :
    (render demoNode (frameInside 250)).visit = Visit.child 1 :=
  (lod_child_dispatch demoNode (frameInside 250) 1 (by decide)
    (by decide)).1 (by decide)

/-- C10: a frame either leaves the stored level unchanged or overwrites it
with the freshly selected index (a natural number, never −1); in
particular frames that select nothing (classification short of the
frustum stage, or no threshold ≤ size) keep the previous level, and a
nonnegative stored level can never become negative again. -/
theorem selected_level_never_reset (bb : BoundingBox) (inp : FrameInput) :
    ((∃ i : Nat, (render bb inp).selectedLevel = Option.some i ∧
        (render bb inp).node.level = (i : Int)) ∨
      (render bb inp).node.level = bb.level) ∧
    ((render bb inp).selectedLevel = Option.none →
      (render bb inp).node.level = bb.level) ∧
    (0 ≤ bb.level → 0 ≤ (render bb inp).node.level) := by
  refine ⟨?_, render_level_none bb inp, ?_⟩
  · cases hsel : (render bb inp).selectedLevel
    · exact Or.inr (render_level_none bb inp hsel)
    · rename_i i
      exact Or.inl ⟨i, rfl, render_level_some bb inp i hsel⟩
  · intro hpos
    cases hsel : (render bb inp).selectedLevel
    · rw [render_level_none bb inp hsel]
      exact hpos
    · rename_i i
      rw [render_level_some bb inp i hsel]
      exact_mod_cast Nat.zero_le i

/-- Witness for C10: `demoNode` at projected size 5 (below every
threshold) keeps its stored level. -/
theorem selected_level_never_reset_witness :
    (render demoNode (frameInside 5)).node.level = demoNode.level :=
  (selected_level_never_reset demoNode (frameInside 5)).2.1 (by decide)
